import Mathlib

set_option linter.unusedVariables false

/-!
Shallow embedding of the Command & Deployment Execution Engine of
`workbench-ui` (`backend/app/agents/command_agent.py` and
`backend/app/agents/deployment_agent.py`).

External effects (scratch-file write, `os.chmod`, subprocess spawn,
stream collection, the deployment-tracking HTTP calls) are modelled by an
oracle record whose boolean fields say whether the corresponding Python
operation raises, and whose remaining fields give the observed process
exit code and captured streams.  Python exceptions are modelled with
`Except PyExc`; a raised exception propagates exactly where the Python
code has no `try`/`except` around the call.
-/

namespace WorkbenchUI

deriving instance DecidableEq for Except

/-- Python exceptions that the embedded code can raise. -/
inductive PyExc where
  | ioError       -- `open`/`write` of the scratch file raised
  | chmodError    -- `os.chmod` raised
  | spawnError    -- `asyncio.create_subprocess_shell` raised
  | commError     -- `process.communicate()` raised
  | indexError    -- `command.split()[0]` on an empty token list
deriving DecidableEq, Repr

/-- The dictionary returned by `_run_script`:
`{"returncode": ..., "output": ..., "error": ...}`. -/
structure ScriptResult where
  returncode : Int
  output : String
  error : String
deriving DecidableEq, Repr

/-- Oracle for one `_run_script` call: which of its effectful steps
succeed, and what the spawned process reports when it runs. -/
structure RunEnv where
  writeOk : Bool
  chmodOk : Bool
  spawnOk : Bool
  commOk : Bool
  retcode : Int
  out : String
  err : String
deriving DecidableEq, Repr

/-- All effectful steps of a `_run_script` call succeed. -/
def runOkB (e : RunEnv) : Bool :=
  e.writeOk && e.chmodOk && e.spawnOk && e.commOk

/-- `CommandAgent._run_script` / `DeploymentAgent._run_script` (their
bodies are identical up to the scratch-file name prefix): write the
script to a scratch file, chmod it, spawn it, collect stdout/stderr,
then `os.remove` the scratch file.  None of these steps is guarded by
`try`/`except`, and the `os.remove` is not in a `finally` block.

First component: the returned dictionary, or the exception that
propagates.  Second component: whether the scratch file still exists
after the call returns or raises. -/
def run_script (script : String) (e : RunEnv) :
    Except PyExc ScriptResult × Bool :=
  if e.writeOk = false then (Except.error PyExc.ioError, false)
  else if e.chmodOk = false then (Except.error PyExc.chmodError, true)
  else if e.spawnOk = false then (Except.error PyExc.spawnError, true)
  else if e.commOk = false then (Except.error PyExc.commError, true)
  else (Except.ok ⟨e.retcode, e.out, e.err⟩, false)

/-- `run_script` ignores the script text: only the oracle decides. -/
theorem run_script_script_irrel (s t : String) (e : RunEnv) :
    run_script s e = run_script t e := rfl

/-- Whether an `Except`-value is a normal return. -/
def exOk {α : Type} (x : Except PyExc α) : Bool :=
  match x with
  | Except.ok _ => true
  | Except.error _ => false

/-! ### Python string helpers -/

/-- Python `str.split()` whitespace class (ASCII part). -/
def isPyWs (c : Char) : Bool :=
  c = ' ' || c = '\t' || c = '\n' || c = '\r' || c = '\x0b' || c = '\x0c'

/-- Accumulator version of Python `str.split()` (no separator): split on
runs of whitespace, dropping empty fields. -/
def splitWsAux : List Char → List Char → List (List Char)
  | [], acc => if acc.isEmpty then [] else [acc.reverse]
  | c :: cs, acc =>
    if isPyWs c then
      if acc.isEmpty then splitWsAux cs []
      else acc.reverse :: splitWsAux cs []
    else splitWsAux cs (c :: acc)

/-- Python `command.split()`. -/
def pySplitWs (s : String) : List String :=
  (splitWsAux s.data []).map (fun l => ⟨l⟩)

/-- Python `output.split("\n")`: split at every newline, keeping empty
fields. -/
def splitNlAux : List Char → List (List Char)
  | [] => [[]]
  | c :: cs =>
    if c = '\n' then [] :: splitNlAux cs
    else
      match splitNlAux cs with
      | [] => [[c]]
      | l :: ls => (c :: l) :: ls

/-- Python `output.split("\n")` on a `String`. -/
def pySplitNl (s : String) : List String :=
  (splitNlAux s.data).map (fun l => ⟨l⟩)

/-- Python `str.lower()` (ASCII). -/
def pyLower (s : String) : String := ⟨s.data.map Char.toLower⟩

/-- Python slicing `s[:n]` by characters. -/
def pyTake (s : String) (n : Nat) : String := ⟨s.data.take n⟩

/-- Boolean list-prefix test. -/
def isPrefixB : List Char → List Char → Bool
  | [], _ => true
  | _ :: _, [] => false
  | a :: as, b :: bs => a = b && isPrefixB as bs

/-- Python `pat in s` substring test, on char lists. -/
def containsSub (pat : List Char) : List Char → Bool
  | [] => isPrefixB pat []
  | c :: cs => isPrefixB pat (c :: cs) || containsSub pat cs

/-- Value of a decimal digit run, as Python `int` would read it. -/
def digitsToNat (ds : List Char) : Nat :=
  ds.foldl (fun n c => n * 10 + (c.toNat - '0'.toNat)) 0

/-- Try to match the regex `(\d+)\s+<word>` at the head of `cs`,
returning the integer captured by the digit group.  (`\d` and `\s` are
disjoint classes and `\s` is disjoint from the first letter of the
literal word, so the greedy matches need no backtracking.) -/
def countPrefix (word : List Char) (cs : List Char) : Option Nat :=
  let ds := cs.takeWhile Char.isDigit
  let rest1 := cs.dropWhile Char.isDigit
  if ds.isEmpty then none
  else
    let ws := rest1.takeWhile isPyWs
    let rest2 := rest1.dropWhile isPyWs
    if ws.isEmpty then none
    else if isPrefixB word rest2 then some (digitsToNat ds) else none

/-- `re.search(r"(\d+)\s+<word>", cs)`: leftmost match, returning the
captured count. -/
def searchCount (word : List Char) : List Char → Option Nat
  | [] => none
  | c :: cs =>
    match countPrefix word (c :: cs) with
    | some n => some n
    | none => searchCount word cs


/-! ### Script Renderer: the f-string templates of `CommandAgent`
(`self.sophia_repo = "../sophia-intel-ai"` is set in `__init__`). -/

def sophia_repo : String := "../sophia-intel-ai"

/-- `test_script` in `CommandAgent._run_tests`. -/
def test_script (service : String) : String :=
  "#!/bin/bash\nset -e\ncd " ++ sophia_repo ++ "\n\necho \"🧪 Running tests for "
  ++ service ++ "\"\n\n# Python tests\nif [ -f \"pytest.ini\" ] || [ -f \"setup.cfg\" ]; then\n    python -m pytest tests/ -v \x2d\x2dcov="
  ++ service ++ " \x2d\x2dcov-report=term-missing\nfi\n\n# JavaScript/TypeScript tests\nif [ -f \"package.json\" ]; then\n    npm test\nfi\n\necho \"✅ Tests complete!\"\n"

/-- `lint_script` in `CommandAgent._run_lint`. -/
def lint_script (service : String) : String :=
  "#!/bin/bash\nset -e\ncd " ++ sophia_repo ++ "\n\necho \"🔍 Linting "
  ++ service ++ "\"\n\n# Python linting\nif [ -f \"pyproject.toml\" ] || [ -f \".flake8\" ]; then\n    # Ruff (fast Python linter)\n    ruff check . \x2d\x2dfix\n    \n    # Type checking\n    mypy "
  ++ service ++ " \x2d\x2dignore-missing-imports\nfi\n\n# JavaScript/TypeScript linting\nif [ -f \".eslintrc.json\" ] || [ -f \".eslintrc.js\" ]; then\n    npx eslint . \x2d\x2dfix\nfi\n\necho \"✅ Linting complete!\"\n"

/-- `format_script` in `CommandAgent._format_code`. -/
def format_script (service : String) : String :=
  "#!/bin/bash\nset -e\ncd " ++ sophia_repo ++ "\n\necho \"💅 Formatting code for "
  ++ service ++ "\"\n\n# Python formatting\nif [ -f \"pyproject.toml\" ]; then\n    # Black for Python\n    black .\n    \n    # isort for imports\n    isort .\nfi\n\n# JavaScript/TypeScript formatting\nif [ -f \".prettierrc\" ] || [ -f \"prettier.config.js\" ]; then\n    npx prettier \x2d\x2dwrite .\nfi\n\necho \"✅ Formatting complete!\"\n"

/-- `analyze_script` in `CommandAgent._analyze_code`. -/
def analyze_script (service : String) : String :=
  "#!/bin/bash\nset -e\ncd " ++ sophia_repo ++ "\n\necho \"📊 Analyzing code for "
  ++ service ++ "\"\n\n# Python analysis\nif [ -f \"pyproject.toml\" ]; then\n    # Complexity analysis\n    radon cc "
  ++ service ++ " -s -j > /tmp/complexity.json\n    \n    # Security scan\n    bandit -r "
  ++ service ++ " -f json > /tmp/security.json || true\n    \n    # Dependencies audit\n    pip-audit \x2d\x2ddesc > /tmp/dependencies.txt || true\nfi\n\n# Output results\necho \"=== Complexity Analysis ===\"\ncat /tmp/complexity.json 2>/dev/null || echo \"No Python code\"\n\necho \"=== Security Scan ===\"\ncat /tmp/security.json 2>/dev/null || echo \"No issues found\"\n\necho \"=== Dependencies ===\"\ncat /tmp/dependencies.txt 2>/dev/null || echo \"All dependencies secure\"\n\necho \"✅ Analysis complete!\"\n"

/-- `migration_script` in `CommandAgent._run_migrations`. -/
def migration_script (service : String) : String :=
  "#!/bin/bash\nset -e\ncd " ++ sophia_repo ++ "\n\necho \"🔄 Running migrations for "
  ++ service ++ "\"\n\n# Alembic migrations (SQLAlchemy)\nif [ -f \"alembic.ini\" ]; then\n    alembic upgrade head\nfi\n\n# Django migrations\nif [ -f \"manage.py\" ]; then\n    python manage.py migrate\nfi\n\n# Custom migrations\nif [ -d \"migrations\" ]; then\n    for migration in migrations/*.sql; do\n        echo \"Running $migration\"\n        # Execute migration (adjust for your DB)\n    done\nfi\n\necho \"✅ Migrations complete!\"\n"

/-- `backup_script` in `CommandAgent._backup_data`; `timestamp` is
`datetime.utcnow().strftime("%Y%m%d_%H%M%S")` taken at handler entry. -/
def backup_script (service timestamp : String) : String :=
  "#!/bin/bash\nset -e\ncd " ++ sophia_repo ++ "\n\necho \"💾 Backing up "
  ++ service ++ "\"\n\nBACKUP_DIR=\"backups/" ++ timestamp
  ++ "\"\nmkdir -p $BACKUP_DIR\n\n# Backup code\ntar -czf $BACKUP_DIR/"
  ++ service ++ "_code.tar.gz " ++ service
  ++ "/\n\n# Backup config\ncp -r config/ $BACKUP_DIR/config/\n\n# Backup database (if exists)\nif [ -f \".env\" ]; then\n    source .env\n    if [ ! -z \"$DATABASE_URL\" ]; then\n        pg_dump $DATABASE_URL > $BACKUP_DIR/database.sql\n    fi\nfi\n\n# Upload to cloud storage (optional)\n# aws s3 cp $BACKUP_DIR s3://sophia-backups/"
  ++ timestamp ++ "/ \x2d\x2drecursive\n\necho \"✅ Backup complete: $BACKUP_DIR\"\n"

/-- `restore_script` in `CommandAgent._restore_data`. -/
def restore_script (service backup_id : String) : String :=
  "#!/bin/bash\nset -e\ncd " ++ sophia_repo ++ "\n\necho \"♻️ Restoring "
  ++ service ++ " from " ++ backup_id ++ "\"\n\nif [ \"" ++ backup_id
  ++ "\" == \"latest\" ]; then\n    BACKUP_DIR=$(ls -t backups/ | head -1)\nelse\n    BACKUP_DIR=\"backups/"
  ++ backup_id
  ++ "\"\nfi\n\nif [ ! -d \"$BACKUP_DIR\" ]; then\n    echo \"❌ Backup not found: $BACKUP_DIR\"\n    exit 1\nfi\n\n# Restore code\ntar -xzf $BACKUP_DIR/"
  ++ service
  ++ "_code.tar.gz\n\n# Restore config\ncp -r $BACKUP_DIR/config/* config/\n\n# Restore database\nif [ -f \"$BACKUP_DIR/database.sql\" ]; then\n    source .env\n    psql $DATABASE_URL < $BACKUP_DIR/database.sql\nfi\n\necho \"✅ Restore complete from $BACKUP_DIR\"\n"

/-- `git_script` in `CommandAgent._git_operation`. -/
def git_script (command : String) : String :=
  "#!/bin/bash\nset -e\ncd " ++ sophia_repo ++ "\n\necho \"📝 Git operation: "
  ++ command ++ "\"\n\n# Execute git command\n" ++ command
  ++ "\n\necho \"✅ Git operation complete!\"\n"

/-- `docker_script` in `CommandAgent._docker_operation`. -/
def docker_script (command : String) : String :=
  "#!/bin/bash\nset -e\ncd " ++ sophia_repo ++ "\n\necho \"🐳 Docker operation: "
  ++ command ++ "\"\n\n# Execute docker command\n" ++ command
  ++ "\n\necho \"✅ Docker operation complete!\"\n"

/-- `npm_script` in `CommandAgent._npm_operation`. -/
def npm_script (command : String) : String :=
  "#!/bin/bash\nset -e\ncd " ++ sophia_repo ++ "\n\necho \"📦 NPM operation: "
  ++ command ++ "\"\n\n# Execute npm command\n" ++ command
  ++ "\n\necho \"✅ NPM operation complete!\"\n"

/-- `python_script` in `CommandAgent._python_operation`. -/
def python_script (command : String) : String :=
  "#!/bin/bash\nset -e\ncd " ++ sophia_repo ++ "\n\necho \"🐍 Python operation: "
  ++ command
  ++ "\"\n\n# Activate virtual environment if exists\nif [ -f \"venv/bin/activate\" ]; then\n    source venv/bin/activate\nfi\n\n# Execute python command\n"
  ++ command ++ "\n\necho \"✅ Python operation complete!\"\n"

/-- Literal text of `custom_script` before the first `{command}`
interpolation in `CommandAgent._custom_command`. -/
def customPre : String :=
  "#!/bin/bash\nset -e\ncd " ++ sophia_repo ++ "\n\necho \"⚡ Custom command: "

/-- Literal text of `custom_script` between its two `{command}`
interpolations. -/
def customMid : String :=
  "\"\necho \"⚠️ Executing with FULL PRIVILEGES\"\n\n# Execute command\n"

/-- Literal text of `custom_script` after the second `{command}`
interpolation. -/
def customPost : String :=
  "\n\necho \"✅ Command complete!\"\n"

/-- `custom_script` in `CommandAgent._custom_command`: the raw command
text is interpolated verbatim, twice. -/
def custom_script (command : String) : String :=
  customPre ++ command ++ customMid ++ command ++ customPost

/-! ### Result Interpreter and data model of `CommandAgent` -/

/-- The `results` dictionary built by `_parse_test_results`. -/
structure TestResults where
  passed : Nat
  failed : Nat
  skipped : Nat
deriving DecidableEq, Repr

/-- The constant dictionary returned by `_parse_analysis_results`. -/
structure AnalysisResults where
  complexity : String
  security_issues : String
  dependencies : String
deriving DecidableEq, Repr

/-- One line of `_parse_test_results`'s loop body: lowercase the line,
check `"passed" in line.lower()`, then `re.search(r"(\d+)\s+passed", ...)`
and return the captured integer when it matches. -/
def parse_line_passed (line : String) : Option Nat :=
  let low := pyLower line
  if containsSub "passed".data low.data then searchCount "passed".data low.data
  else none

/-- `CommandAgent._parse_test_results`: only the `passed` count is ever
assigned (the loop body handles just the `"passed"` pattern; the comment
`# Similar for failed and skipped` is not followed by code), and each
matching line overwrites the previous value. -/
def parse_test_results (output : String) : TestResults :=
  { passed :=
      (pySplitNl output).foldl
        (fun acc line =>
          match parse_line_passed line with
          | some n => n
          | none => acc) 0,
    failed := 0,
    skipped := 0 }

/-- `CommandAgent._parse_analysis_results`: constant placeholder. -/
def parse_analysis_results (output : String) : AnalysisResults :=
  { complexity := "extracted from output",
    security_issues := "extracted from output",
    dependencies := "extracted from output" }

/-- The dictionary a category handler returns (union of the fields the
twelve handlers produce; handler-specific fields default to `none`). -/
structure CmdResult where
  status : String
  command : String
  service : String
  output : String
  test_results : Option TestResults := none
  analysis : Option AnalysisResults := none
  backup_location : Option String := none
  restored_from : Option String := none
  warning : Option String := none
deriving DecidableEq, Repr

/-- The audit-log entry built by `_log_command` (the wall-clock
`timestamp` field carries no program logic and is omitted). -/
structure AuditRecord where
  command : String
  service : String
  status : String
  user : String
  output_preview : Option String
deriving DecidableEq, Repr

/-- `CommandAgent._log_command`: one JSON line appended to the audit
log.  `output_preview` is `result.get("output", "")[:500]` when the
output is truthy (non-empty) and `None` otherwise. -/
def log_command (command service : String) (result : CmdResult) : AuditRecord :=
  { command := command,
    service := service,
    status := result.status,
    user := "ceo",
    output_preview :=
      if result.output = "" then none else some (pyTake result.output 500) }

/-- Python `args.get(key, default)` on a string-valued dict. -/
def dictGet (d : List (String × String)) (k dflt : String) : String :=
  match d.find? (fun p => p.1 == k) with
  | some p => p.2
  | none => dflt

/-- Oracle for one `CommandAgent.execute` call.  `runEnv` governs the
handler's own `_run_script` call; `gitRunEnv` governs the nested
`_git_operation` run that `_format_code` performs after a successful
format; `timestamp` is the formatted UTC time read in `_backup_data`. -/
structure CmdEnv where
  runEnv : RunEnv
  gitRunEnv : RunEnv
  timestamp : String
deriving Repr

/-- What a category handler call produces: its return value or the
exception that propagates, the script texts it passed to `_run_script`
(in order), and the command strings it passed to `_git_operation`. -/
structure HandlerOut where
  result : Except PyExc CmdResult
  scripts : List String
  gitCalls : List String := []
deriving Repr

/-- `CommandAgent._run_tests`. -/
def run_tests (command service : String) (env : CmdEnv) : HandlerOut :=
  let script := test_script service
  match (run_script script env.runEnv).1 with
  | Except.error e => ⟨Except.error e, [script], []⟩
  | Except.ok r =>
    ⟨Except.ok
        { status := if r.returncode = 0 then "success" else "failed",
          command := command, service := service, output := r.output,
          test_results := some (parse_test_results r.output) },
      [script], []⟩

/-- `CommandAgent._run_lint`. -/
def run_lint (command service : String) (env : CmdEnv) : HandlerOut :=
  let script := lint_script service
  match (run_script script env.runEnv).1 with
  | Except.error e => ⟨Except.error e, [script], []⟩
  | Except.ok r =>
    ⟨Except.ok
        { status := if r.returncode = 0 then "success" else "failed",
          command := command, service := service, output := r.output },
      [script], []⟩

/-- `CommandAgent._git_operation` (takes the oracle of its own
`_run_script` call, since `_format_code` invokes it nested). -/
def git_operation (command service : String) (re : RunEnv) : HandlerOut :=
  let script := git_script command
  match (run_script script re).1 with
  | Except.error e => ⟨Except.error e, [script], []⟩
  | Except.ok r =>
    ⟨Except.ok
        { status := if r.returncode = 0 then "success" else "failed",
          command := command, service := service, output := r.output },
      [script], []⟩

/-- The fixed commit command `_format_code` passes to `_git_operation`
after a successful format run. -/
def autoFormatCommit : String :=
  "git add -A && git commit -m \x27Auto-format code\x27"

/-- `CommandAgent._format_code`: on exit code 0 it additionally awaits
`_git_operation` with the fixed commit command (discarding that result);
an exception from the nested call propagates. -/
def format_code (command service : String) (env : CmdEnv) : HandlerOut :=
  let script := format_script service
  match (run_script script env.runEnv).1 with
  | Except.error e => ⟨Except.error e, [script], []⟩
  | Except.ok r =>
    if r.returncode = 0 then
      let g := git_operation autoFormatCommit service env.gitRunEnv
      match g.result with
      | Except.error e => ⟨Except.error e, script :: g.scripts, [autoFormatCommit]⟩
      | Except.ok _ =>
        ⟨Except.ok
            { status := "success", command := command, service := service,
              output := r.output },
          script :: g.scripts, [autoFormatCommit]⟩
    else
      ⟨Except.ok
          { status := "failed", command := command, service := service,
            output := r.output },
        [script], []⟩

/-- `CommandAgent._analyze_code`: the returned status is the literal
`"success"`, not a function of the exit code. -/
def analyze_code (command service : String) (env : CmdEnv) : HandlerOut :=
  let script := analyze_script service
  match (run_script script env.runEnv).1 with
  | Except.error e => ⟨Except.error e, [script], []⟩
  | Except.ok r =>
    ⟨Except.ok
        { status := "success",
          command := command, service := service, output := r.output,
          analysis := some (parse_analysis_results r.output) },
      [script], []⟩

/-- `CommandAgent._run_migrations`. -/
def run_migrations (command service : String) (env : CmdEnv) : HandlerOut :=
  let script := migration_script service
  match (run_script script env.runEnv).1 with
  | Except.error e => ⟨Except.error e, [script], []⟩
  | Except.ok r =>
    ⟨Except.ok
        { status := if r.returncode = 0 then "success" else "failed",
          command := command, service := service, output := r.output },
      [script], []⟩

/-- `CommandAgent._backup_data`. -/
def backup_data (command service : String) (env : CmdEnv) : HandlerOut :=
  let script := backup_script service env.timestamp
  match (run_script script env.runEnv).1 with
  | Except.error e => ⟨Except.error e, [script], []⟩
  | Except.ok r =>
    ⟨Except.ok
        { status := if r.returncode = 0 then "success" else "failed",
          command := command, service := service, output := r.output,
          backup_location := some ("backups/" ++ env.timestamp) },
      [script], []⟩

/-- `CommandAgent._restore_data`. -/
def restore_data (command service : String) (args : List (String × String))
    (env : CmdEnv) : HandlerOut :=
  let backup_id := dictGet args "backup_id" "latest"
  let script := restore_script service backup_id
  match (run_script script env.runEnv).1 with
  | Except.error e => ⟨Except.error e, [script], []⟩
  | Except.ok r =>
    ⟨Except.ok
        { status := if r.returncode = 0 then "success" else "failed",
          command := command, service := service, output := r.output,
          restored_from := some backup_id },
      [script], []⟩

/-- `CommandAgent._docker_operation`. -/
def docker_operation (command service : String) (env : CmdEnv) : HandlerOut :=
  let script := docker_script command
  match (run_script script env.runEnv).1 with
  | Except.error e => ⟨Except.error e, [script], []⟩
  | Except.ok r =>
    ⟨Except.ok
        { status := if r.returncode = 0 then "success" else "failed",
          command := command, service := service, output := r.output },
      [script], []⟩

/-- `CommandAgent._npm_operation`. -/
def npm_operation (command service : String) (env : CmdEnv) : HandlerOut :=
  let script := npm_script command
  match (run_script script env.runEnv).1 with
  | Except.error e => ⟨Except.error e, [script], []⟩
  | Except.ok r =>
    ⟨Except.ok
        { status := if r.returncode = 0 then "success" else "failed",
          command := command, service := service, output := r.output },
      [script], []⟩

/-- `CommandAgent._python_operation`. -/
def python_operation (command service : String) (env : CmdEnv) : HandlerOut :=
  let script := python_script command
  match (run_script script env.runEnv).1 with
  | Except.error e => ⟨Except.error e, [script], []⟩
  | Except.ok r =>
    ⟨Except.ok
        { status := if r.returncode = 0 then "success" else "failed",
          command := command, service := service, output := r.output },
      [script], []⟩

/-- `CommandAgent._custom_command`: executes the raw command text with
full privileges. -/
def custom_command (command service : String) (env : CmdEnv) : HandlerOut :=
  let script := custom_script command
  match (run_script script env.runEnv).1 with
  | Except.error e => ⟨Except.error e, [script], []⟩
  | Except.ok r =>
    ⟨Except.ok
        { status := if r.returncode = 0 then "success" else "failed",
          command := command, service := service, output := r.output,
          warning := some "Executed with full privileges" },
      [script], []⟩

/-! ### Command Dispatcher -/

/-- The keys of `self.allowed_commands`. -/
inductive Handler where
  | test | lint | format | analyze | migrate | backup | restore
  | git | docker | npm | python | custom
deriving DecidableEq, Repr

/-- The `self.allowed_commands` dictionary (keyword → handler). -/
def allowed_commands (k : String) : Option Handler :=
  if k = "test" then some Handler.test
  else if k = "lint" then some Handler.lint
  else if k = "format" then some Handler.format
  else if k = "analyze" then some Handler.analyze
  else if k = "migrate" then some Handler.migrate
  else if k = "backup" then some Handler.backup
  else if k = "restore" then some Handler.restore
  else if k = "git" then some Handler.git
  else if k = "docker" then some Handler.docker
  else if k = "npm" then some Handler.npm
  else if k = "python" then some Handler.python
  else if k = "custom" then some Handler.custom
  else none

/-- `self.allowed_commands.get(cmd_type, self._custom_command)`. -/
def getHandler (k : String) : Handler :=
  (allowed_commands k).getD Handler.custom

/-- `cmd_type = command.split()[0] if command else "custom"`: the empty
string is falsy and selects `"custom"`; a non-empty string is split on
whitespace and indexing `[0]` raises `IndexError` when the split result
is empty (whitespace-only command). -/
def cmd_type (command : String) : Except PyExc String :=
  if command = "" then Except.ok "custom"
  else
    match pySplitWs command with
    | [] => Except.error PyExc.indexError
    | t :: _ => Except.ok t

/-- Apply the selected handler (`handler(command, service, args or {})`). -/
def runHandler (h : Handler) (command service : String)
    (args : List (String × String)) (env : CmdEnv) : HandlerOut :=
  match h with
  | Handler.test => run_tests command service env
  | Handler.lint => run_lint command service env
  | Handler.format => format_code command service env
  | Handler.analyze => analyze_code command service env
  | Handler.migrate => run_migrations command service env
  | Handler.backup => backup_data command service env
  | Handler.restore => restore_data command service args env
  | Handler.git => git_operation command service env.runEnv
  | Handler.docker => docker_operation command service env
  | Handler.npm => npm_operation command service env
  | Handler.python => python_operation command service env
  | Handler.custom => custom_command command service env

/-- Everything observable about one `CommandAgent.execute` call. -/
structure ExecTrace where
  result : Except PyExc CmdResult
  audit : List AuditRecord
  scripts : List String
  gitCalls : List String
  dispatched : Option Handler
deriving DecidableEq, Repr

/-- `CommandAgent.execute`: parse the category keyword, dispatch, then
log to the audit trail.  There is no `try`/`except`: an exception from
the keyword parse or from the handler propagates, and `_log_command`
only runs when the handler returned normally. -/
def execute (command service : String) (args : List (String × String))
    (env : CmdEnv) : ExecTrace :=
  match cmd_type command with
  | Except.error e => ⟨Except.error e, [], [], [], none⟩
  | Except.ok t =>
    let h := getHandler t
    let ho := runHandler h command service args env
    match ho.result with
    | Except.error e => ⟨Except.error e, [], ho.scripts, ho.gitCalls, some h⟩
    | Except.ok r =>
      ⟨Except.ok r, [log_command command service r], ho.scripts, ho.gitCalls, some h⟩

/-- Status field of the value `execute` returned, when it returned. -/
def statusOf (tr : ExecTrace) : Option String :=
  match tr.result with
  | Except.ok r => some r.status
  | Except.error _ => none

/-! ### Deployment Orchestrator (`DeploymentAgent`) -/

/-- Message text standing in for Python's `str(e)` of a raised
exception (the concrete wording carries no program logic). -/
def excMsg : PyExc → String
  | PyExc.ioError => "scratch file write failed"
  | PyExc.chmodError => "chmod failed"
  | PyExc.spawnError => "subprocess spawn failed"
  | PyExc.commError => "stream collection failed"
  | PyExc.indexError => "list index out of range"

/-- Message standing in for the `httpx` exception raised when the
deployment-tracking API is unreachable. -/
def trackingFailMsg : String := "deployment tracking API unreachable"

/-- Oracle for one `DeploymentAgent.deploy` call.  `runEnv` governs the
single `_run_script` call of the taken path; `trackingOk = false` means
the awaited `_log_deployment_to_github` call raises (network failure /
API unreachable); `ts` is `datetime.utcnow().strftime('%Y%m%d%H%M%S')`
read at orchestration start; `fly_token` is `os.getenv("FLY_API_TOKEN")`
as a string. -/
structure DeployEnv where
  runEnv : RunEnv
  trackingOk : Bool
  ts : String
  fly_token : String
deriving Repr

/-- The dictionary `DeploymentAgent.deploy` / `_rollback` returns (union
of the fields produced on the various paths). -/
structure DeployResult where
  status : String
  deployment_id : String := ""
  url : String := ""
  operation : String := ""
  service : String := ""
  logs : List String := []
  version : String := ""
  target : String := ""
  error : Option String := none
deriving DecidableEq, Repr

/-- `deployment_id = f"deploy-{service}-{...strftime('%Y%m%d%H%M%S')}"`. -/
def deployment_id_str (service ts : String) : String :=
  "deploy-" ++ service ++ "-" ++ ts

/-- `url = f"https://sophia-{service}-{target}.fly.dev"`. -/
def deploy_url (service target : String) : String :=
  "https://sophia-" ++ service ++ "-" ++ target ++ ".fly.dev"

/-- `deploy_script` in `DeploymentAgent.deploy`; `did` is the
`deployment_id` computed just before the script is rendered. -/
def deploy_script (target service version fly_token did : String) : String :=
  "#!/bin/bash\nset -e\n\necho \"🚀 Starting deployment " ++
  did ++
  "\"\ncd " ++ sophia_repo ++
  "\n\n# Build Docker image\necho \"📦 Building Docker image...\"\ndocker build -t sophia-"
  ++ service ++ ":" ++ version ++ " -f docker/" ++ service ++
  ".Dockerfile .\n\n# Tag for Fly.io registry\necho \"🏷️ Tagging for Fly.io...\"\ndocker tag sophia-"
  ++ service ++ ":" ++ version ++ " registry.fly.io/sophia-" ++ service ++ ":" ++ version ++
  "\n\n# Authenticate with Fly.io\necho \"🔐 Authenticating with Fly.io...\"\nfly auth token "
  ++ fly_token ++
  "\n\n# Push to Fly.io registry\necho \"⬆️ Pushing to registry...\"\nfly deploy \x2d\x2dapp sophia-"
  ++ service ++ "-" ++ target ++ " \\\n    \x2d\x2dimage registry.fly.io/sophia-"
  ++ service ++ ":" ++ version ++
  " \\\n    \x2d\x2dstrategy rolling \\\n    \x2d\x2dwait-timeout 300\n\n# Health check\necho \"✅ Checking deployment health...\"\nfly status \x2d\x2dapp sophia-"
  ++ service ++ "-" ++ target ++
  "\n\necho \"✨ Deployment " ++ did ++ " complete!\"\n"

/-- `rollback_script` in `DeploymentAgent._rollback`. -/
def rollback_script (service : String) : String :=
  "#!/bin/bash\nset -e\n\necho \"⏮️ Starting rollback for " ++ service ++
  "\"\ncd " ++ sophia_repo ++
  "\n\n# Get previous release\nPREV_RELEASE=$(fly releases \x2d\x2dapp sophia-"
  ++ service ++
  " \x2d\x2djson | jq -r \x27.[1].version\x27)\n\nif [ -z \"$PREV_RELEASE\" ]; then\n    echo \"❌ No previous release found\"\n    exit 1\nfi\n\necho \"🔄 Rolling back to version $PREV_RELEASE\"\nfly deploy \x2d\x2dapp sophia-"
  ++ service ++
  " \x2d\x2dimage-label v$PREV_RELEASE\n\necho \"✅ Rollback complete!\"\nfly status \x2d\x2dapp sophia-"
  ++ service ++ "\n"

/-- `DeploymentAgent._rollback`: its `_run_script` call sits outside any
`try`/`except`, so an exception there propagates to `deploy`'s caller;
on a normal run the status is `"success"` for exit code 0 and `"error"`
otherwise. -/
def rollback_run (service : String) (env : DeployEnv) : Except PyExc DeployResult :=
  let script := rollback_script service
  match (run_script script env.runEnv).1 with
  | Except.error e => Except.error e
  | Except.ok r =>
    Except.ok
      { status := if r.returncode = 0 then "success" else "error",
        operation := "rollback", service := service,
        logs := pySplitNl r.output }

/-- `DeploymentAgent.deploy`.  On the non-rollback path the whole body
(script run, URL computation, the awaited `_log_deployment_to_github`
tracking calls, and the success return) sits inside one
`try`/`except Exception`: any exception yields the `"error"` dictionary,
and the success return never consults `result["returncode"]`. -/
def deploy (target service version : String) (rollback : Bool)
    (env : DeployEnv) : Except PyExc DeployResult :=
  if rollback then rollback_run service env
  else
    let did := deployment_id_str service env.ts
    let script := deploy_script target service version env.fly_token did
    match (run_script script env.runEnv).1 with
    | Except.error e =>
      Except.ok
        { status := "error", deployment_id := did, error := some (excMsg e),
          logs := ["Deployment failed: " ++ excMsg e] }
    | Except.ok r =>
      if env.trackingOk then
        Except.ok
          { status := "success", deployment_id := did,
            url := deploy_url service target,
            logs := pySplitNl r.output,
            version := version, target := target }
      else
        Except.ok
          { status := "error", deployment_id := did,
            error := some trackingFailMsg,
            logs := ["Deployment failed: " ++ trackingFailMsg] }

/-- Status field of a `deploy` return value, when it returned. -/
def deployStatus (x : Except PyExc DeployResult) : Option String :=
  match x with
  | Except.ok r => some r.status
  | Except.error _ => none

/-- Follows the spec's words (Result Interpreter, §4.3): scan the output
lines for the count pattern `N <word>` and extract the integer count;
absence of a match leaves the count at zero.  The spec asserts this for
each of the words `passed`, `failed` and `skipped`; this definition is
the spec-side extractor used to compare against `parse_test_results`. -/
def spec_extract_count (word : String) (output : String) : Nat :=
  (pySplitNl output).foldl
    (fun acc line =>
      match searchCount word.data (pyLower line).data with
      | some n => n
      | none => acc) 0

/-! ### Helper lemmas -/

/-- When every effectful step succeeds, `_run_script` returns the
process result and removes the scratch file. -/
theorem runOkB_run_script (s : String) (e : RunEnv) (h : runOkB e = true) :
    run_script s e = (Except.ok ⟨e.retcode, e.out, e.err⟩, false) := by
  unfold runOkB at h
  simp only [Bool.and_eq_true] at h
  obtain ⟨⟨⟨hw, hc⟩, hs⟩, hcm⟩ := h
  simp [run_script, hw, hc, hs, hcm]

/-- Splitting an all-whitespace character list yields no tokens. -/
theorem splitWsAux_all_ws (l : List Char) (h : ∀ c ∈ l, isPyWs c = true) :
    splitWsAux l [] = [] := by
  induction l with
  | nil => rfl
  | cons c cs ih =>
    have hc : isPyWs c = true := h c (by simp)
    simp only [splitWsAux, hc, if_true, List.isEmpty_nil]
    exact ih (fun d hd => h d (by simp [hd]))

/-- A non-empty all-whitespace command makes the first-token extraction
raise `IndexError`. -/
theorem cmd_type_ws_only (command : String) (hne : command ≠ "")
    (h : ∀ c ∈ command.data, isPyWs c = true) :
    cmd_type command = Except.error PyExc.indexError := by
  unfold cmd_type
  rw [if_neg hne]
  unfold pySplitWs
  rw [splitWsAux_all_ws command.data h]
  rfl

/-- Folding the `_parse_test_results` update over lines none of which
match leaves the accumulator unchanged. -/
theorem foldl_parse_none (ls : List String) (acc : Nat)
    (h : ∀ l ∈ ls, parse_line_passed l = none) :
    ls.foldl
      (fun acc line =>
        match parse_line_passed line with
        | some n => n
        | none => acc) acc = acc := by
  induction ls generalizing acc with
  | nil => rfl
  | cons l ls ih =>
    have hl : parse_line_passed l = none := h l (by simp)
    simp only [List.foldl_cons, hl]
    exact ih acc (fun x hx => h x (by simp [hx]))

/-! ### Claim C1 -/

/-- A run whose subprocess spawn raises after the scratch file was
written and made executable. -/
def spawnFailRun : RunEnv := ⟨true, true, false, true, 0, "", ""⟩

/-- A fully successful run with the given exit code and stdout. -/
def okRun (rc : Int) (out : String) : RunEnv := ⟨true, true, true, true, rc, out, ""⟩

/-- `CmdEnv` whose handler-run spawn fails. -/
def envSpawnFailC : CmdEnv := ⟨spawnFailRun, okRun 0 "", "20250101_000000"⟩

/-- `CmdEnv` whose single run succeeds with the given exit code/output. -/
def envRunC (rc : Int) (out : String) : CmdEnv :=
  ⟨okRun rc out, okRun 0 "", "20250101_000000"⟩

/-- Claim C1 is false on the code: for the invocation
`execute("test sophia", "api", {})` whose spawn fails, the call raises
and the audit log receives zero records, not exactly one. -/
theorem execute_unaudited_on_handler_exception :
    (execute "test sophia" "api" [] envSpawnFailC).audit = [] ∧
    exOk (execute "test sophia" "api" [] envSpawnFailC).result = false := by
  decide

/-- Claim C1, amended: exactly one AuditRecord is appended when the
dispatch call returns normally; when the keyword parse or the category
handler raises, the exception propagates out of `execute` (there is no
`try`/`except`) and no AuditRecord is appended. -/
theorem execute_audit_exactly_one_of_ok (command service : String)
    (args : List (String × String)) (env : CmdEnv) :
    (execute command service args env).audit.length =
      (if exOk (execute command service args env).result = true then 1 else 0) := by
  unfold execute
  cases h : cmd_type command with
  | error e => simp [exOk]
  | ok t =>
    cases h2 : (runHandler (getHandler t) command service args env).result with
    | error e => simp [h2, exOk]
    | ok r => simp [h2, exOk]

/-! ### Claim C4 -/

/-- Claim C4 is false on the code: when the subprocess spawn fails, the
Process Runner raises instead of returning a well-formed
`ExecutionResult`-like value. -/
theorem run_script_raises_on_spawn_failure :
    (run_script "#!/bin/bash\necho hi\n" spawnFailRun).1 =
      Except.error PyExc.spawnError := by
  decide

/-- Claim C4, amended: `_run_script` returns a well-formed result
exactly when the scratch-file write, `chmod`, spawn, and stream
collection all succeed; any failure among them propagates as an
exception to the caller (the body has no `try`/`except`). -/
theorem run_script_ok_iff_all_steps_ok (script : String) (e : RunEnv) :
    exOk (run_script script e).1 = runOkB e := by
  obtain ⟨w, c, sp, cm, rc, o, er⟩ := e
  cases w <;> cases c <;> cases sp <;> cases cm <;>
    simp [run_script, runOkB, exOk]

/-! ### Claim C7 -/

/-- Claim C7 is false on the code: when the spawn fails, the call raises
after the scratch file was written, and the file persists (`os.remove`
is not in a `finally` block). -/
theorem scratch_persists_on_spawn_failure :
    (run_script "#!/bin/bash\necho hi\n" spawnFailRun).2 = true := by
  decide

/-- Claim C7, amended: the scratch file is deleted on the success path
(and never created when the initial write itself fails), but it
persists past the call whenever `chmod`, the spawn, or the stream
collection raises after the write succeeded. -/
theorem scratch_persists_iff_late_failure (script : String) (e : RunEnv) :
    (run_script script e).2 =
      (e.writeOk && !(e.chmodOk && e.spawnOk && e.commOk)) := by
  obtain ⟨w, c, sp, cm, rc, o, er⟩ := e
  cases w <;> cases c <;> cases sp <;> cases cm <;>
    simp [run_script]

/-! ### Claim C2 -/

/-- Deployment oracle: script runs to completion with exit code 1,
tracking calls succeed. -/
def denvRc1 : DeployEnv := ⟨okRun 1 "build failed", true, "20250101000000", "tok"⟩

/-- Deployment oracle: script exits 0, tracking calls succeed. -/
def denvOk0T : DeployEnv := ⟨okRun 0 "deployed", true, "20250101000000", "tok"⟩

/-- Deployment oracle: script exits 0, the tracking call raises. -/
def denvOk0F : DeployEnv := ⟨okRun 0 "deployed", false, "20250101000000", "tok"⟩

/-- Claim C2 is false on the code: a non-rollback `deploy` whose script
exits 1 still returns status `"success"` — the success return never
consults `result["returncode"]`. -/
theorem deploy_success_despite_nonzero_exit :
    denvRc1.runEnv.retcode = 1 ∧
    deployStatus (deploy "production" "api" "v1.0.0" false denvRc1) =
      some "success" := by
  decide

/-- Claim C2, amended: for a non-rollback `deploy` the returned status
is `"success"` exactly when no exception is raised (scratch write,
chmod, spawn, stream collection, and the tracking calls all succeed),
regardless of the deployment script's exit code; any raised exception
is caught and yields status `"error"`.  The status `"failed"` never
occurs. -/
theorem deploy_status_ignores_exit_code
    (target service version : String) (env : DeployEnv) :
    deployStatus (deploy target service version false env) =
      some (if (runOkB env.runEnv && env.trackingOk) = true
            then "success" else "error") := by
  obtain ⟨⟨w, c, sp, cm, rc, o, er⟩, tr, ts, tok⟩ := env
  cases w <;> cases c <;> cases sp <;> cases cm <;> cases tr <;>
    simp [deploy, run_script, runOkB, deployStatus]

/-! ### Claim C5 -/

/-- Claim C5 is false on the code: with the deployment script exiting 0,
the returned status differs depending on whether the tracking call
raises — `"success"` when it succeeds, `"error"` when it raises — for
oracles that agree on everything else. -/
theorem tracking_failure_changes_status :
    denvOk0T.runEnv = denvOk0F.runEnv ∧
    denvOk0T.runEnv.retcode = 0 ∧
    deployStatus (deploy "production" "api" "v1.0.0" false denvOk0T) =
      some "success" ∧
    deployStatus (deploy "production" "api" "v1.0.0" false denvOk0F) =
      some "error" := by
  decide

/-- Claim C5, amended: the `_log_deployment_to_github` tracking calls
are awaited inside the same `try`/`except` that guards the deployment,
so when the script run completes, a raising tracking call changes the
returned status from `"success"` to `"error"`; the status is
`"success"` only when the tracking calls do not raise. -/
theorem tracking_failure_flips_status_to_error
    (target service version : String) (env : DeployEnv)
    (h : runOkB env.runEnv = true) :
    deployStatus (deploy target service version false env) =
      some (if env.trackingOk = true then "success" else "error") := by
  have hr := runOkB_run_script
      (deploy_script target service version env.fly_token
        (deployment_id_str service env.ts)) env.runEnv h
  simp only [deploy, hr, deployStatus]
  cases htr : env.trackingOk <;> simp

/-- Witness for the amended C5 theorem at a concrete input. -/
theorem tracking_failure_flips_status_to_error_witness :
    runOkB denvOk0F.runEnv = true ∧
    deployStatus (deploy "production" "api" "v1.0.0" false denvOk0F) =
      some (if denvOk0F.trackingOk = true then "success" else "error") :=
  ⟨by decide,
    tracking_failure_flips_status_to_error "production" "api" "v1.0.0"
      denvOk0F (by decide)⟩

/-! ### Claim C3 -/

/-- Claim C3 is false on the code: `analyze` with a script exiting 1
yields status `"success"` (the `_analyze_code` handler hardcodes
`"success"`), where the claim demands `"failed"`. -/
theorem analyze_success_on_nonzero_exit :
    (envRunC 1 "issues found").runEnv.retcode = 1 ∧
    statusOf (execute "analyze backend" "api" [] (envRunC 1 "issues found")) =
      some "success" ∧
    "success" ≠ "failed" := by
  decide

/-- Claim C3, amended: for every dispatched category except `analyze`,
the returned status is `"success"` when the script exits 0 and
`"failed"` otherwise; the `analyze` handler returns `"success"`
regardless of the exit code. -/
theorem category_status_from_exit_code_except_analyze
    (command service : String) (args : List (String × String)) (env : CmdEnv)
    (t : String) (ht : cmd_type command = Except.ok t)
    (h1 : runOkB env.runEnv = true) (h2 : runOkB env.gitRunEnv = true) :
    statusOf (execute command service args env) =
      some (if getHandler t = Handler.analyze then "success"
            else if env.runEnv.retcode = 0 then "success" else "failed") := by
  have hr1 := fun s => runOkB_run_script s env.runEnv h1
  have hr2 := fun s => runOkB_run_script s env.gitRunEnv h2
  unfold execute
  rw [ht]
  cases hh : getHandler t
  case format =>
    simp only [runHandler, format_code, git_operation, hr1, hr2]
    by_cases hrc : env.runEnv.retcode = 0
    · simp [hrc, statusOf, hh]
    · simp [hrc, statusOf, hh]
  all_goals
    simp [runHandler, run_tests, run_lint, analyze_code, run_migrations,
      backup_data, restore_data, git_operation, docker_operation,
      npm_operation, python_operation, custom_command, hr1, statusOf, hh]

/-- Witness for the amended C3 theorem at a concrete input (the `git`
category with exit code 1). -/
theorem category_status_witness :
    cmd_type "git status" = Except.ok "git" ∧
    runOkB (envRunC 1 "conflict").runEnv = true ∧
    statusOf (execute "git status" "api" [] (envRunC 1 "conflict")) =
      some (if getHandler "git" = Handler.analyze then "success"
            else if (envRunC 1 "conflict").runEnv.retcode = 0
            then "success" else "failed") :=
  ⟨by decide, by decide,
    category_status_from_exit_code_except_analyze "git status" "api" []
      (envRunC 1 "conflict") "git" (by decide) (by decide) (by decide)⟩

/-! ### Claim C6 -/

/-- Claim C6: any command whose first whitespace-delimited token is not
a recognized category keyword dispatches to the custom (unrestricted)
handler; the script that handler renders contains the raw command text
verbatim; and the invocation is never rejected — whenever the process
layer works, the call returns a normal result. -/
theorem unknown_keyword_custom_verbatim
    (command service : String) (args : List (String × String)) (env : CmdEnv)
    (t : String) (ht : cmd_type command = Except.ok t)
    (hu : allowed_commands t = none) :
    (execute command service args env).dispatched = some Handler.custom ∧
    (execute command service args env).scripts = [custom_script command] ∧
    (∃ pre post, custom_script command = pre ++ command ++ post) ∧
    (runOkB env.runEnv = true →
      exOk (execute command service args env).result = true) := by
  have hg : getHandler t = Handler.custom := by
    unfold getHandler
    rw [hu]
    rfl
  refine ⟨?_, ?_, ?_, ?_⟩
  · unfold execute
    rw [ht]
    simp only [hg, runHandler, custom_command]
    cases h : (run_script (custom_script command) env.runEnv).1 <;> simp [h]
  · unfold execute
    rw [ht]
    simp only [hg, runHandler, custom_command]
    cases h : (run_script (custom_script command) env.runEnv).1 <;> simp [h]
  · refine ⟨customPre, customMid ++ command ++ customPost, ?_⟩
    simp [custom_script, String.append_assoc]
  · intro hok
    unfold execute
    rw [ht]
    simp only [hg, runHandler, custom_command]
    rw [runOkB_run_script _ _ hok]
    simp [exOk]

/-- Witness for the C6 theorem at the unrecognized keyword
`"frobnicate"`. -/
theorem unknown_keyword_custom_verbatim_witness :
    cmd_type "frobnicate the widgets" = Except.ok "frobnicate" ∧
    allowed_commands "frobnicate" = none ∧
    ((execute "frobnicate the widgets" "api" [] (envRunC 0 "done")).dispatched
        = some Handler.custom ∧
      (execute "frobnicate the widgets" "api" [] (envRunC 0 "done")).scripts
        = [custom_script "frobnicate the widgets"] ∧
      (∃ pre post, custom_script "frobnicate the widgets"
        = pre ++ "frobnicate the widgets" ++ post) ∧
      (runOkB (envRunC 0 "done").runEnv = true →
        exOk (execute "frobnicate the widgets" "api" []
          (envRunC 0 "done")).result = true)) :=
  ⟨by decide, by decide,
    unknown_keyword_custom_verbatim "frobnicate the widgets" "api" []
      (envRunC 0 "done") "frobnicate" (by decide) (by decide)⟩

/-! ### Claim C8 -/

/-- Claim C8: for a dispatched `format` command whose format script runs
to completion, the git-category commit step is invoked exactly once with
the fixed message command when the script exits 0, and not at all when
it exits non-zero. -/
theorem format_commits_iff_success
    (command service : String) (args : List (String × String)) (env : CmdEnv)
    (t : String) (ht : cmd_type command = Except.ok t)
    (hf : getHandler t = Handler.format)
    (h1 : runOkB env.runEnv = true) :
    (execute command service args env).gitCalls =
      (if env.runEnv.retcode = 0 then [autoFormatCommit] else []) := by
  unfold execute
  rw [ht]
  simp only [hf, runHandler, format_code]
  rw [runOkB_run_script _ _ h1]
  by_cases hrc : env.runEnv.retcode = 0
  · simp only [hrc, if_pos]
    cases hg : (git_operation autoFormatCommit service env.gitRunEnv).result <;>
      simp [hg]
  · simp [hrc]

/-- Witness for the C8 theorem: both arms, exit code 0 (one commit call
with the fixed message) and exit code 1 (no commit call). -/
theorem format_commits_iff_success_witness :
    cmd_type "format" = Except.ok "format" ∧
    getHandler "format" = Handler.format ∧
    runOkB (envRunC 0 "formatted").runEnv = true ∧
    (execute "format" "api" [] (envRunC 0 "formatted")).gitCalls =
      (if (envRunC 0 "formatted").runEnv.retcode = 0
        then [autoFormatCommit] else []) ∧
    (execute "format" "api" [] (envRunC 1 "oops")).gitCalls =
      (if (envRunC 1 "oops").runEnv.retcode = 0
        then [autoFormatCommit] else []) :=
  ⟨by decide, by decide, by decide,
    format_commits_iff_success "format" "api" [] (envRunC 0 "formatted")
      "format" (by decide) (by decide) (by decide),
    format_commits_iff_success "format" "api" [] (envRunC 1 "oops")
      "format" (by decide) (by decide) (by decide)⟩

/-! ### Claim C9 -/

/-- Claim C9 is false on the code: on an output line containing the
count patterns for all three words, the spec-side extractor finds
`failed = 2` and `skipped = 1`, but `_parse_test_results` reports 0 for
both — only the `passed` pattern is ever parsed. -/
theorem failed_count_not_extracted :
    spec_extract_count "failed" "3 passed, 2 failed, 1 skipped" = 2 ∧
    spec_extract_count "skipped" "3 passed, 2 failed, 1 skipped" = 1 ∧
    (parse_test_results "3 passed, 2 failed, 1 skipped").passed = 3 ∧
    (parse_test_results "3 passed, 2 failed, 1 skipped").failed = 0 ∧
    (parse_test_results "3 passed, 2 failed, 1 skipped").skipped = 0 ∧
    (0 : Nat) ≠ 2 := by
  decide

/-- Claim C9, amended: the Result Interpreter scans the output lines
only for the `N passed` pattern; the `failed` and `skipped` counts are
always zero whatever the output contains, and when no line matches the
`passed` pattern the `passed` count is zero as well. -/
theorem parse_test_results_only_passed (output : String) :
    (parse_test_results output).failed = 0 ∧
    (parse_test_results output).skipped = 0 ∧
    ((∀ line ∈ pySplitNl output, parse_line_passed line = none) →
      (parse_test_results output).passed = 0) := by
  refine ⟨rfl, rfl, fun h => ?_⟩
  exact foldl_parse_none (pySplitNl output) 0 h

/-- Witness for the amended C9 theorem on an output with no count
patterns at all. -/
theorem parse_test_results_only_passed_witness :
    (parse_test_results "all good\nno counts here").failed = 0 ∧
    (parse_test_results "all good\nno counts here").skipped = 0 ∧
    (parse_test_results "all good\nno counts here").passed = 0 :=
  ⟨(parse_test_results_only_passed "all good\nno counts here").1,
    (parse_test_results_only_passed "all good\nno counts here").2.1,
    (parse_test_results_only_passed "all good\nno counts here").2.2 (by decide)⟩

/-! ### Claim C10 -/

/-- Claim C10: the empty command selects the custom handler (the falsy
branch of `command.split()[0] if command else "custom"`), renders the
custom script and is audited like any other invocation, whereas a
non-empty whitespace-only command makes `command.split()[0]` raise
`IndexError` before any handler runs, any script is rendered, or any
audit record is written. -/
theorem empty_vs_whitespace_command :
    (∀ (service : String) (args : List (String × String)) (env : CmdEnv),
      (execute "" service args env).dispatched = some Handler.custom ∧
      (execute "" service args env).scripts = [custom_script ""] ∧
      (runOkB env.runEnv = true →
        (execute "" service args env).audit.length = 1)) ∧
    (∀ (command service : String) (args : List (String × String))
        (env : CmdEnv), command ≠ "" →
      (∀ c ∈ command.data, isPyWs c = true) →
      execute command service args env =
        ⟨Except.error PyExc.indexError, [], [], [], none⟩) := by
  constructor
  · intro service args env
    have ht : cmd_type "" = Except.ok "custom" := rfl
    have hg : getHandler "custom" = Handler.custom := rfl
    refine ⟨?_, ?_, ?_⟩
    · unfold execute
      rw [ht]
      simp only [hg, runHandler, custom_command]
      cases h : (run_script (custom_script "") env.runEnv).1 <;> simp [h]
    · unfold execute
      rw [ht]
      simp only [hg, runHandler, custom_command]
      cases h : (run_script (custom_script "") env.runEnv).1 <;> simp [h]
    · intro hok
      unfold execute
      rw [ht]
      simp only [hg, runHandler, custom_command]
      rw [runOkB_run_script _ _ hok]
      simp
  · intro command service args env hne hws
    unfold execute
    rw [cmd_type_ws_only command hne hws]

/-- Witness for the C10 theorem: the empty command and the three-space
command at a concrete oracle. -/
theorem empty_vs_whitespace_command_witness :
    ((execute "" "api" [] (envRunC 0 "ok")).dispatched = some Handler.custom ∧
      (execute "" "api" [] (envRunC 0 "ok")).scripts = [custom_script ""] ∧
      (execute "" "api" [] (envRunC 0 "ok")).audit.length = 1) ∧
    execute "   " "api" [] (envRunC 0 "ok") =
      ⟨Except.error PyExc.indexError, [], [], [], none⟩ :=
  ⟨⟨(empty_vs_whitespace_command.1 "api" [] (envRunC 0 "ok")).1,
    (empty_vs_whitespace_command.1 "api" [] (envRunC 0 "ok")).2.1,
    (empty_vs_whitespace_command.1 "api" [] (envRunC 0 "ok")).2.2 (by decide)⟩,
    empty_vs_whitespace_command.2 "   " "api" [] (envRunC 0 "ok")
      (by decide) (by decide)⟩

end WorkbenchUI
